import Mathlib

/-!
# Verification of the Capsule examples-hub signing handlers

A shallow embedding of the signing pipeline of the repository:

* the `v`-adjustment performed by `customSignMessage`
  (`src/unnamed/part_000`, the Express Alchemy session handler file);
* the Express session handlers `alchemySessionSignHandler` and
  `ethersSessionSignHandler` (same file);
* the Deno pregenerated-wallet handler `signWithEthers`
  (`src/server/with-deno/handlers/signWithEthers.ts`);
* the Bun pregenerated-wallet handler `signWithCosmJS`
  (`src/server/with-bun/routes.ts`, second document).

External collaborators (the Capsule SDK, chain providers, the key-share
store, token verification) are modelled as oracles supplied in a world
record; every collaborator call the handler makes is recorded, in source
order, in an event trace, so that claims of the form "collaborator X is
never invoked" become statements about the trace.
-/

namespace CapsuleExamples

/-! ## Signature normalizer

`customSignMessage` (src/unnamed/part_000, lines 123-137) receives the raw
MPC signature as a hex string.  Its `v`-adjustment reads the last two hex
characters (= the final byte), and, when that byte is below 27, replaces it
by the byte plus 27 (`(lastByte + 27).toString(16).padStart(2, "0")` is
again exactly one byte, since `lastByte + 27 ≤ 53 < 256`).  We embed the
signature as its list of bytes, one `Nat` per pair of hex characters.  An
empty signature is returned unchanged (in the source,
`parseInt("", 16)` is `NaN` and `NaN < 27` is `false`). -/
def customSignMessageNormalize (sig : List Nat) : List Nat :=
  match sig.getLast? with
  | none => sig
  | some lastByte =>
      if lastByte < 27 then sig.dropLast ++ [lastByte + 27] else sig

theorem customSignMessageNormalize_concat (pre : List Nat) (b : Nat) :
    customSignMessageNormalize (pre ++ [b]) =
      if b < 27 then pre ++ [b + 27] else pre ++ [b] := by
  simp [customSignMessageNormalize]

theorem customSignMessageNormalize_getLast (sig : List Nat) (b : Nat)
    (h : sig.getLast? = some b) :
    (customSignMessageNormalize sig).getLast? =
      some (if b < 27 then b + 27 else b) := by
  rcases List.eq_nil_or_concat sig with rfl | ⟨pre, c, rfl⟩
  · simp at h
  · rw [List.concat_eq_append] at h ⊢
    rw [List.getLast?_concat] at h
    cases h
    rw [customSignMessageNormalize_concat]
    split <;> simp

/-- C1 (counterexample): the claim states that for EVERY value of the final
recovery byte the normalized signature ends in 27 or 28.  At input byte 2
the code adds 27 and produces 29, which is neither. -/
theorem c1_normalize_not_always_27_28 :
    customSignMessageNormalize [170, 2] = [170, 29] ∧
      ¬ (29 = 27 ∨ 29 = 28) := by
  constructor
  · rfl
  · decide

/-- C1 (amended): the `v`-adjustment of `customSignMessage` is a pure total
function; on a signature whose final byte is `b < 27` it rewrites the final
byte to `b + 27` (so the result ends in 27 or 28 exactly when `b` is 0
or 1), and on `b ≥ 27` it leaves the signature unchanged.  It never fails:
every input byte deterministically yields an output. -/
theorem c1_normalize_adds_27_below_27 (sig : List Nat) (b : Nat)
    (h : sig.getLast? = some b) :
    (b < 27 → customSignMessageNormalize sig = sig.dropLast ++ [b + 27]) ∧
    (27 ≤ b → customSignMessageNormalize sig = sig) ∧
    ((b = 0 ∨ b = 1) →
      ((customSignMessageNormalize sig).getLast? = some 27 ∨
       (customSignMessageNormalize sig).getLast? = some 28)) := by
  refine ⟨fun hb => ?_, fun hb => ?_, fun hb => ?_⟩
  · simp [customSignMessageNormalize, h, hb]
  · simp [customSignMessageNormalize, h, Nat.not_lt.mpr hb]
  · rw [customSignMessageNormalize_getLast sig b h]
    rcases hb with rfl | rfl <;> simp

/-- Witness for C1's amended theorem at the concrete signature `[170, 0]`. -/
theorem c1_normalize_adds_27_below_27_witness :
    customSignMessageNormalize [170, 0] = [170, 27] := by
  have h := c1_normalize_adds_27_below_27 [170, 0] 0 (by decide)
  have h0 := h.1 (by decide)
  simpa using h0

/-- C2: the normalizer maps a final byte 0x00 to 0x1b (27) and 0x01 to
0x1c (28), returns a signature ending in 0x1b (27) or 0x1c (28) unchanged,
and is idempotent on those inputs. -/
theorem c2_normalize_values_and_idempotent (pre : List Nat) :
    customSignMessageNormalize (pre ++ [0]) = pre ++ [27] ∧
    customSignMessageNormalize (pre ++ [1]) = pre ++ [28] ∧
    customSignMessageNormalize (pre ++ [27]) = pre ++ [27] ∧
    customSignMessageNormalize (pre ++ [28]) = pre ++ [28] ∧
    (customSignMessageNormalize (customSignMessageNormalize (pre ++ [0])) =
        customSignMessageNormalize (pre ++ [0])) ∧
    (customSignMessageNormalize (customSignMessageNormalize (pre ++ [1])) =
        customSignMessageNormalize (pre ++ [1])) ∧
    (customSignMessageNormalize (customSignMessageNormalize (pre ++ [27])) =
        customSignMessageNormalize (pre ++ [27])) ∧
    (customSignMessageNormalize (customSignMessageNormalize (pre ++ [28])) =
        customSignMessageNormalize (pre ++ [28])) := by
  simp [customSignMessageNormalize_concat]

/-- C10: the normalizer touches at most the final byte: output length
equals input length, all bytes but the last are unchanged, and a signature
whose final byte is at least 27 is returned whole and unchanged. -/
theorem c10_normalize_frame (sig : List Nat) :
    (customSignMessageNormalize sig).length = sig.length ∧
    (customSignMessageNormalize sig).dropLast = sig.dropLast ∧
    (∀ b, sig.getLast? = some b → 27 ≤ b →
      customSignMessageNormalize sig = sig) := by
  refine ⟨?_, ?_, fun b hb h27 => ?_⟩
  · rcases List.eq_nil_or_concat sig with rfl | ⟨pre, c, rfl⟩
    · rfl
    · rw [List.concat_eq_append, customSignMessageNormalize_concat]
      split <;> simp
  · rcases List.eq_nil_or_concat sig with rfl | ⟨pre, c, rfl⟩
    · rfl
    · rw [List.concat_eq_append, customSignMessageNormalize_concat]
      split <;> simp
  · simp [customSignMessageNormalize, hb, Nat.not_lt.mpr h27]

/-- Witness for C10 at the concrete signature `[5, 30]`: the final byte 30
is at least 27, so the signature is unchanged. -/
theorem c10_normalize_frame_witness :
    customSignMessageNormalize [5, 30] = [5, 30] ∧
    (customSignMessageNormalize [5, 30]).length = 2 := by
  have h := c10_normalize_frame [5, 30]
  have heq := h.2.2 30 (by decide) (by decide)
  exact ⟨heq, by rw [heq]; rfl⟩

/-! ## Request-handler model

Each handler is embedded as a function from a world of collaborator
oracles plus the request's authorization header / parsed body fields to an
outcome together with a trace of the collaborator calls the handler made,
in source order.  A collaborator call that the source `await`s may throw;
an exception not caught inside the handler escapes as `Outcome.thrown`. -/

/-- A user operation as built by `alchemySessionSignHandler`
(src/unnamed/part_000, lines 92-99): a target address and calldata
produced by `encodeFunctionData` from a function name and arguments. -/
structure UserOp where
  target : String
  functionName : String
  args : List Nat
deriving DecidableEq, Repr

/-- Events: one per collaborator construction or call that a handler
performs, in source order. -/
inductive Ev where
  | newCapsuleServer
  | importSession (session : String)
  | createViemClient
  | createAlchemyClient
  | sendUserOperation (ops : List UserOp)
  | hasPregenWallet (email : String)
  | getKeyShare (email : String)
  | decrypt
  | setUserShare
  | newProvider
  | newProtoSigner
  | connectWithSigner
  | getAddress
  | signMessage
  | getTransactionCount
  | getFeeData
  | signTransaction
  | stargateSign
  | consoleError (ctx : String)
deriving DecidableEq, Repr

/-- The JSON (or plain-text) body of a handler response. -/
inductive Payload where
  | text (s : String)
  | alchemyJson (message : String) (submittedOps : List UserOp)
      (opResult : String)
  | ethersSessionJson (message : String) (signedTransaction : String)
  | denoEthersJson (route : String) (signMessageResult : String)
      (signTxResult : String)
  | cosmJson (route : String) (signResult : String)
deriving DecidableEq, Repr

structure Response where
  status : Nat
  payload : Payload
deriving DecidableEq, Repr

/-- How a request ends: a response; an exception that escaped the handler
uncaught; or (Express handlers only) delegation to the error middleware
via `next(error)` from inside the handler's `catch` block. -/
inductive Outcome where
  | resp (r : Response)
  | thrown (e : String)
  | nextCalled (e : String)
deriving DecidableEq, Repr

abbrev Trace := List Ev

/-- Record a collaborator call's event, then continue with its result; if
the collaborator throws, the exception escapes (nothing here catches). -/
def extCall {α : Type} (ev : Ev) (r : Except String α) (tr : Trace)
    (k : α → Trace → Outcome × Trace) : Outcome × Trace :=
  match r with
  | .error e => (.thrown e, tr ++ [ev])
  | .ok a => k a (tr ++ [ev])

/-- JavaScript falsiness of an optional string: `undefined` (here `none`)
and the empty string are falsy; every other string is truthy. -/
def falsy (o : Option String) : Bool := o.getD "" = ""

/-- JavaScript `s.split(" ")` on the character list of `s`: split at every
single space, keeping empty fragments. -/
def splitOnSpace : List Char → List (List Char)
  | [] => [[]]
  | c :: cs =>
    if c = ' ' then [] :: splitOnSpace cs
    else
      match splitOnSpace cs with
      | [] => [[c]]
      | w :: ws => (c :: w) :: ws

/-- `authHeader.startsWith("Bearer ")`. -/
def startsWithBearer (h : String) : Bool :=
  h.data.take 7 = ['B', 'e', 'a', 'r', 'e', 'r', ' ']

/-- `authHeader.split(" ")[1]`: the token part of a bearer header
(`undefined` is impossible once the header starts with `"Bearer "`; an
absent fragment is the empty string). -/
def bearerToken (h : String) : String :=
  ⟨(splitOnSpace h.data).getD 1 []⟩

/-! ## Deno pregenerated-wallet handler `signWithEthers`
(src/server/with-deno/handlers/signWithEthers.ts) -/

/-- Collaborator oracles of `signWithEthers`: token verification
(`simulateVerifyToken`, a collaborator in `utils/auth-utils.ts`), the
request body parse, the environment, the Capsule client, the key-share
store, decryption, and the ethers provider/signer. -/
structure DenoEthersWorld where
  verifyToken : String → Option String
  reqJson : Except String (Option String)
  capsuleApiKey : Option String
  hasPregenWallet : String → Except String Bool
  getKeyShareInDB : String → Option String
  decrypt : String → Except String String
  setUserShare : String → Except String Unit
  getAddress : Except String String
  signMessage : String → Except String String
  getTransactionCount : String → Except String Nat
  getFeeDataGasPrice : Except String (Option Nat)
  signTransaction : Except String String

/-- `signWithEthers` (src/server/with-deno/handlers/signWithEthers.ts,
lines 13-79), step for step: 401 on a missing/non-Bearer/unverifiable
authorization header; parse the body (`await req.json()` throws on
malformed JSON, uncaught here); 403 when the verified subject's email
differs from the requested `email`; 500 when `CAPSULE_API_KEY` is unset;
then construct the Capsule client, check `hasPregenWallet`, look up and
decrypt the key share, install it, construct the ethers provider and
signer, and sign a message and a demo transaction.  The handler has no
try/catch: any collaborator exception escapes. -/
def signWithEthers (w : DenoEthersWorld) (authHeader : Option String) :
    Outcome × Trace :=
  match authHeader with
  | none => (.resp ⟨401, .text "Unauthorized"⟩, [])
  | some ah =>
  if startsWithBearer ah then
    match w.verifyToken (bearerToken ah) with
    | none => (.resp ⟨401, .text "Unauthorized"⟩, [])
    | some userEmail =>
    match w.reqJson with
    | .error e => (.thrown e, [])
    | .ok emailField =>
    if emailField ≠ some userEmail then (.resp ⟨403, .text "Forbidden"⟩, [])
    else if falsy w.capsuleApiKey then
      (.resp ⟨500, .text "CAPSULE_API_KEY not set"⟩, [])
    else
    extCall (.hasPregenWallet userEmail) (w.hasPregenWallet userEmail)
        [.newCapsuleServer] fun hasW tr =>
    if ¬ hasW then (.resp ⟨400, .text "Wallet does not exist"⟩, tr) else
    let keyShare := w.getKeyShareInDB userEmail
    let tr := tr ++ [.getKeyShare userEmail]
    match keyShare with
    | none => (.resp ⟨400, .text "Key share does not exist"⟩, tr)
    | some ks =>
    if ks = "" then (.resp ⟨400, .text "Key share does not exist"⟩, tr) else
    extCall .decrypt (w.decrypt ks) tr fun decryptedKeyShare tr =>
    extCall .setUserShare (w.setUserShare decryptedKeyShare) tr fun _ tr =>
    let tr := tr ++ [.newProvider]
    extCall .getAddress w.getAddress tr fun address tr =>
    extCall .signMessage
        (w.signMessage "Sign with Capsule PreGen and Capsule Ethers Signer")
        tr fun signMessageResult tr =>
    extCall .getTransactionCount (w.getTransactionCount address) tr
        fun _nonce tr =>
    extCall .getFeeData w.getFeeDataGasPrice tr fun _gasPrice tr =>
    extCall .signTransaction w.signTransaction tr fun signTxResult tr =>
    (.resp ⟨200, .denoEthersJson "signWithEthers" signMessageResult
        signTxResult⟩, tr)
  else (.resp ⟨401, .text "Unauthorized"⟩, [])

/-- The complete sequence of collaborator events that a fully successful
`signWithEthers` request for `email` produces; every actual trace is a
prefix of it. -/
def denoEthersFullTrace (email : String) : Trace :=
  [.newCapsuleServer, .hasPregenWallet email, .getKeyShare email, .decrypt,
   .setUserShare, .newProvider, .getAddress, .signMessage,
   .getTransactionCount, .getFeeData, .signTransaction]

/-- The email a `signWithEthers` run resolves its collaterals against: the
verified subject of the bearer token (arbitrary when never resolved). -/
def requestEmail (w : DenoEthersWorld) (authHeader : Option String) :
    String :=
  match authHeader with
  | none => ""
  | some ah => (w.verifyToken (bearerToken ah)).getD ""

theorem signWithEthers_trace_prefix (w : DenoEthersWorld)
    (auth : Option String) :
    (signWithEthers w auth).2 <+:
      denoEthersFullTrace (requestEmail w auth) := by
  rcases auth with _ | ah
  · simp [signWithEthers, List.nil_prefix]
  by_cases hb : startsWithBearer ah
  case neg => simp [signWithEthers, hb, List.nil_prefix]
  rcases hv : w.verifyToken (bearerToken ah) with _ | userEmail
  · simp [signWithEthers, hb, hv, List.nil_prefix]
  have hre : requestEmail w (some ah) = userEmail := by
    simp [requestEmail, hv]
  rcases hj : w.reqJson with e | emailField
  · simp [signWithEthers, hb, hv, hj, List.nil_prefix]
  by_cases he : emailField = some userEmail
  case neg => simp [signWithEthers, hb, hv, hj, he, List.nil_prefix]
  by_cases hk : falsy w.capsuleApiKey
  · simp [signWithEthers, hb, hv, hj, he, hk, List.nil_prefix]
  rcases hw : w.hasPregenWallet userEmail with e | hasW
  · simp [signWithEthers, extCall, hb, hv, hj, he, hk, hw, hre,
      denoEthersFullTrace, List.cons_prefix_cons, List.nil_prefix]
  rcases hasW with _ | _
  · simp [signWithEthers, extCall, hb, hv, hj, he, hk, hw, hre,
      denoEthersFullTrace, List.cons_prefix_cons, List.nil_prefix]
  rcases hks : w.getKeyShareInDB userEmail with _ | ks
  · simp [signWithEthers, extCall, hb, hv, hj, he, hk, hw, hks, hre,
      denoEthersFullTrace, List.cons_prefix_cons, List.nil_prefix]
  by_cases hke : ks = ""
  · simp [signWithEthers, extCall, hb, hv, hj, he, hk, hw, hks, hke, hre,
      denoEthersFullTrace, List.cons_prefix_cons, List.nil_prefix]
  rcases hd : w.decrypt ks with e | dec
  · simp [signWithEthers, extCall, hb, hv, hj, he, hk, hw, hks, hke, hd,
      hre, denoEthersFullTrace, List.cons_prefix_cons, List.nil_prefix]
  rcases hs : w.setUserShare dec with e | _
  · simp [signWithEthers, extCall, hb, hv, hj, he, hk, hw, hks, hke, hd,
      hs, hre, denoEthersFullTrace, List.cons_prefix_cons, List.nil_prefix]
  rcases ha : w.getAddress with e | address
  · simp [signWithEthers, extCall, hb, hv, hj, he, hk, hw, hks, hke, hd,
      hs, ha, hre, denoEthersFullTrace, List.cons_prefix_cons,
      List.nil_prefix]
  rcases hm : w.signMessage
      "Sign with Capsule PreGen and Capsule Ethers Signer" with e | msg
  · simp [signWithEthers, extCall, hb, hv, hj, he, hk, hw, hks, hke, hd,
      hs, ha, hm, hre, denoEthersFullTrace, List.cons_prefix_cons,
      List.nil_prefix]
  rcases hn : w.getTransactionCount address with e | nonce
  · simp [signWithEthers, extCall, hb, hv, hj, he, hk, hw, hks, hke, hd,
      hs, ha, hm, hn, hre, denoEthersFullTrace, List.cons_prefix_cons,
      List.nil_prefix]
  rcases hf : w.getFeeDataGasPrice with e | gp
  · simp [signWithEthers, extCall, hb, hv, hj, he, hk, hw, hks, hke, hd,
      hs, ha, hm, hn, hf, hre, denoEthersFullTrace, List.cons_prefix_cons,
      List.nil_prefix]
  rcases ht : w.signTransaction with e | tx
  all_goals
    simp [signWithEthers, extCall, hb, hv, hj, he, hk, hw, hks, hke, hd,
      hs, ha, hm, hn, hf, ht, hre, denoEthersFullTrace,
      List.cons_prefix_cons, List.nil_prefix]

/-! ## Bun pregenerated-wallet handler `signWithCosmJS`
(src/server/with-bun/routes.ts, second document) -/

/-- Collaborator oracles of `signWithCosmJS`; the auth, body, environment,
wallet-existence, key-share-store, decryption and share-installation steps
are the same collaborators as in the Deno handler, followed by the CosmJS
Stargate client. -/
structure BunCosmWorld where
  verifyToken : String → Option String
  reqJson : Except String (Option String)
  capsuleApiKey : Option String
  hasPregenWallet : String → Except String Bool
  getKeyShareInDB : String → Option String
  decrypt : String → Except String String
  setUserShare : String → Except String Unit
  connectWithSigner : Except String Unit
  protoSignerAddress : String
  stargateSign : Except String String

/-- `signWithCosmJS` (src/server/with-bun/routes.ts, lines 36-118 of the
second document), step for step: 401 on a missing/non-Bearer/unverifiable
authorization header; parse the body; 403 on an email mismatch; 500 when
`CAPSULE_API_KEY` is unset; construct the Capsule client, check
`hasPregenWallet`, look up and decrypt the key share, install it,
construct the proto signer, connect the Stargate client, and sign the
demo MsgSend.  No try/catch: any collaborator exception escapes. -/
def signWithCosmJS (w : BunCosmWorld) (authHeader : Option String) :
    Outcome × Trace :=
  match authHeader with
  | none => (.resp ⟨401, .text "Unauthorized"⟩, [])
  | some ah =>
  if startsWithBearer ah then
    match w.verifyToken (bearerToken ah) with
    | none => (.resp ⟨401, .text "Unauthorized"⟩, [])
    | some userEmail =>
    match w.reqJson with
    | .error e => (.thrown e, [])
    | .ok emailField =>
    if emailField ≠ some userEmail then (.resp ⟨403, .text "Forbidden"⟩, [])
    else if falsy w.capsuleApiKey then
      (.resp ⟨500, .text "CAPSULE_API_KEY not set"⟩, [])
    else
    extCall (.hasPregenWallet userEmail) (w.hasPregenWallet userEmail)
        [.newCapsuleServer] fun hasW tr =>
    if ¬ hasW then (.resp ⟨400, .text "Wallet does not exist"⟩, tr) else
    let keyShare := w.getKeyShareInDB userEmail
    let tr := tr ++ [.getKeyShare userEmail]
    match keyShare with
    | none => (.resp ⟨400, .text "Key share does not exist"⟩, tr)
    | some ks =>
    if ks = "" then (.resp ⟨400, .text "Key share does not exist"⟩, tr) else
    extCall .decrypt (w.decrypt ks) tr fun decryptedKeyShare tr =>
    extCall .setUserShare (w.setUserShare decryptedKeyShare) tr fun _ tr =>
    let tr := tr ++ [.newProtoSigner]
    extCall .connectWithSigner w.connectWithSigner tr fun _ tr =>
    extCall .stargateSign w.stargateSign tr fun signResult tr =>
    (.resp ⟨200, .cosmJson "signWithCosmJS" signResult⟩, tr)
  else (.resp ⟨401, .text "Unauthorized"⟩, [])

/-- The complete event sequence of a fully successful `signWithCosmJS`
request for `email`. -/
def bunCosmFullTrace (email : String) : Trace :=
  [.newCapsuleServer, .hasPregenWallet email, .getKeyShare email, .decrypt,
   .setUserShare, .newProtoSigner, .connectWithSigner, .stargateSign]

/-- The verified subject email of a `signWithCosmJS` run (arbitrary when
the token is never resolved). -/
def cosmRequestEmail (w : BunCosmWorld) (authHeader : Option String) :
    String :=
  match authHeader with
  | none => ""
  | some ah => (w.verifyToken (bearerToken ah)).getD ""

theorem signWithCosmJS_trace_prefix (w : BunCosmWorld)
    (auth : Option String) :
    (signWithCosmJS w auth).2 <+:
      bunCosmFullTrace (cosmRequestEmail w auth) := by
  rcases auth with _ | ah
  · simp [signWithCosmJS, List.nil_prefix]
  by_cases hb : startsWithBearer ah
  case neg => simp [signWithCosmJS, hb, List.nil_prefix]
  rcases hv : w.verifyToken (bearerToken ah) with _ | userEmail
  · simp [signWithCosmJS, hb, hv, List.nil_prefix]
  have hre : cosmRequestEmail w (some ah) = userEmail := by
    simp [cosmRequestEmail, hv]
  rcases hj : w.reqJson with e | emailField
  · simp [signWithCosmJS, hb, hv, hj, List.nil_prefix]
  by_cases he : emailField = some userEmail
  case neg => simp [signWithCosmJS, hb, hv, hj, he, List.nil_prefix]
  by_cases hk : falsy w.capsuleApiKey
  · simp [signWithCosmJS, hb, hv, hj, he, hk, List.nil_prefix]
  rcases hw : w.hasPregenWallet userEmail with e | hasW
  · simp [signWithCosmJS, extCall, hb, hv, hj, he, hk, hw, hre,
      bunCosmFullTrace, List.cons_prefix_cons, List.nil_prefix]
  rcases hasW with _ | _
  · simp [signWithCosmJS, extCall, hb, hv, hj, he, hk, hw, hre,
      bunCosmFullTrace, List.cons_prefix_cons, List.nil_prefix]
  rcases hks : w.getKeyShareInDB userEmail with _ | ks
  · simp [signWithCosmJS, extCall, hb, hv, hj, he, hk, hw, hks, hre,
      bunCosmFullTrace, List.cons_prefix_cons, List.nil_prefix]
  by_cases hke : ks = ""
  · simp [signWithCosmJS, extCall, hb, hv, hj, he, hk, hw, hks, hke, hre,
      bunCosmFullTrace, List.cons_prefix_cons, List.nil_prefix]
  rcases hd : w.decrypt ks with e | dec
  · simp [signWithCosmJS, extCall, hb, hv, hj, he, hk, hw, hks, hke, hd,
      hre, bunCosmFullTrace, List.cons_prefix_cons, List.nil_prefix]
  rcases hs : w.setUserShare dec with e | _
  · simp [signWithCosmJS, extCall, hb, hv, hj, he, hk, hw, hks, hke, hd,
      hs, hre, bunCosmFullTrace, List.cons_prefix_cons, List.nil_prefix]
  rcases hc : w.connectWithSigner with e | _
  · simp [signWithCosmJS, extCall, hb, hv, hj, he, hk, hw, hks, hke, hd,
      hs, hc, hre, bunCosmFullTrace, List.cons_prefix_cons,
      List.nil_prefix]
  rcases hg : w.stargateSign with e | sr
  all_goals
    simp [signWithCosmJS, extCall, hb, hv, hj, he, hk, hw, hks, hke, hd,
      hs, hc, hg, hre, bunCosmFullTrace, List.cons_prefix_cons,
      List.nil_prefix]

/-! ## Concrete worlds used by witnesses and counterexamples -/

/-- A Deno world where token `"tok1"` verifies to subject `"a@b.com"`, the
request body asks for the same email, but no pregenerated wallet and no
key share exist. -/
def denoNoWalletWorld : DenoEthersWorld where
  verifyToken := fun t => if t = "tok1" then some "a@b.com" else none
  reqJson := .ok (some "a@b.com")
  capsuleApiKey := some "capsule-key"
  hasPregenWallet := fun _ => .ok false
  getKeyShareInDB := fun _ => none
  decrypt := fun s => .ok s
  setUserShare := fun _ => .ok ()
  getAddress := .ok "0xabc"
  signMessage := fun _ => .ok "msgsig"
  getTransactionCount := fun _ => .ok 0
  getFeeDataGasPrice := .ok (some 1)
  signTransaction := .ok "rawtx"

/-- Like `denoNoWalletWorld`, but the request body asks for
`"other@b.com"` while the token's subject is `"a@b.com"`. -/
def denoMismatchWorld : DenoEthersWorld :=
  { denoNoWalletWorld with reqJson := .ok (some "other@b.com") }

/-- Like `denoNoWalletWorld`, but `CAPSULE_API_KEY` is unset. -/
def denoNoKeyWorld : DenoEthersWorld :=
  { denoNoWalletWorld with capsuleApiKey := none }

/-- Like `denoNoWalletWorld`, but the wallet-existence check throws a
network timeout. -/
def denoThrowWorld : DenoEthersWorld :=
  { denoNoWalletWorld with hasPregenWallet := fun _ => .error "network timeout" }

/-- A Bun world with the same authentication data as `denoNoWalletWorld`
and no pregenerated wallet. -/
def bunNoWalletWorld : BunCosmWorld where
  verifyToken := fun t => if t = "tok1" then some "a@b.com" else none
  reqJson := .ok (some "a@b.com")
  capsuleApiKey := some "capsule-key"
  hasPregenWallet := fun _ => .ok false
  getKeyShareInDB := fun _ => none
  decrypt := fun s => .ok s
  setUserShare := fun _ => .ok ()
  connectWithSigner := .ok ()
  protoSignerAddress := "cosmos1from"
  stargateSign := .ok "cosmsig"

/-- Like `bunNoWalletWorld`, but the request body asks for
`"other@b.com"`. -/
def bunMismatchWorld : BunCosmWorld :=
  { bunNoWalletWorld with reqJson := .ok (some "other@b.com") }

/-! ## Claims about the pregenerated-wallet handlers -/

/-- C4: in both pregenerated-wallet handlers (`signWithEthers` and
`signWithCosmJS`), a request with a valid bearer token whose verified
subject differs from the requested `email` receives status 403
("Forbidden") with an empty collaborator trace, so in particular
`getKeyShareInDB` is never called. -/
theorem c4_forbidden_before_keyshare (wd : DenoEthersWorld)
    (wb : BunCosmWorld) (ah u em : String)
    (hbd : startsWithBearer ah = true)
    (hvd : wd.verifyToken (bearerToken ah) = some u)
    (hvb : wb.verifyToken (bearerToken ah) = some u)
    (hjd : wd.reqJson = .ok (some em))
    (hjb : wb.reqJson = .ok (some em))
    (hne : em ≠ u) :
    signWithEthers wd (some ah) = (.resp ⟨403, .text "Forbidden"⟩, []) ∧
    signWithCosmJS wb (some ah) = (.resp ⟨403, .text "Forbidden"⟩, []) ∧
    (∀ e, Ev.getKeyShare e ∉ (signWithEthers wd (some ah)).2) ∧
    (∀ e, Ev.getKeyShare e ∉ (signWithCosmJS wb (some ah)).2) := by
  have h1 : signWithEthers wd (some ah) =
      (.resp ⟨403, .text "Forbidden"⟩, []) := by
    simp [signWithEthers, hbd, hvd, hjd, hne]
  have h2 : signWithCosmJS wb (some ah) =
      (.resp ⟨403, .text "Forbidden"⟩, []) := by
    simp [signWithCosmJS, hbd, hvb, hjb, hne]
  exact ⟨h1, h2, fun e => by simp [h1], fun e => by simp [h2]⟩

/-- Witness for C4 at the concrete request `Bearer tok1` (subject
`a@b.com`) asking for `other@b.com`, in the concrete mismatch worlds. -/
theorem c4_forbidden_before_keyshare_witness :
    signWithEthers denoMismatchWorld (some "Bearer tok1") =
      (.resp ⟨403, .text "Forbidden"⟩, []) ∧
    signWithCosmJS bunMismatchWorld (some "Bearer tok1") =
      (.resp ⟨403, .text "Forbidden"⟩, []) := by
  have h := c4_forbidden_before_keyshare denoMismatchWorld bunMismatchWorld
    "Bearer tok1" "a@b.com" "other@b.com" (by decide) (by decide)
    (by decide) rfl rfl (by decide)
  exact ⟨h.1, h.2.1⟩

/-- C6: in the Deno ethers route, a request with a valid bearer token and
matching email for which the wallet-existence check returns `false` gets
status 400 with body "Wallet does not exist", and its trace
`[newCapsuleServer, hasPregenWallet u]` shows that no chain provider was
constructed and no provider-backed call was made. -/
theorem c6_wallet_does_not_exist (w : DenoEthersWorld) (ah u : String)
    (hbd : startsWithBearer ah = true)
    (hv : w.verifyToken (bearerToken ah) = some u)
    (hj : w.reqJson = .ok (some u))
    (hk : falsy w.capsuleApiKey = false)
    (hw : w.hasPregenWallet u = .ok false) :
    signWithEthers w (some ah) =
      (.resp ⟨400, .text "Wallet does not exist"⟩,
       [.newCapsuleServer, .hasPregenWallet u]) ∧
    Ev.newProvider ∉ (signWithEthers w (some ah)).2 ∧
    Ev.getAddress ∉ (signWithEthers w (some ah)).2 ∧
    Ev.signMessage ∉ (signWithEthers w (some ah)).2 ∧
    Ev.getTransactionCount ∉ (signWithEthers w (some ah)).2 ∧
    Ev.getFeeData ∉ (signWithEthers w (some ah)).2 ∧
    Ev.signTransaction ∉ (signWithEthers w (some ah)).2 := by
  have h1 : signWithEthers w (some ah) =
      (.resp ⟨400, .text "Wallet does not exist"⟩,
       [.newCapsuleServer, .hasPregenWallet u]) := by
    simp [signWithEthers, extCall, hbd, hv, hj, hk, hw]
  refine ⟨h1, ?_, ?_, ?_, ?_, ?_, ?_⟩ <;> simp [h1]

/-- Witness for C6 at the concrete request `Bearer tok1` for `a@b.com` in
`denoNoWalletWorld`, where no pregenerated wallet exists. -/
theorem c6_wallet_does_not_exist_witness :
    signWithEthers denoNoWalletWorld (some "Bearer tok1") =
      (.resp ⟨400, .text "Wallet does not exist"⟩,
       [.newCapsuleServer, .hasPregenWallet "a@b.com"]) := by
  exact (c6_wallet_does_not_exist denoNoWalletWorld "Bearer tok1" "a@b.com"
    (by decide) (by decide) rfl (by decide) rfl).1

theorem denoEthersFullTrace_nodup (e : String) :
    (denoEthersFullTrace e).Nodup := by
  simp [denoEthersFullTrace]

theorem bunCosmFullTrace_nodup (e : String) :
    (bunCosmFullTrace e).Nodup := by
  simp [bunCosmFullTrace]

/-- C8: the key-share resolution flow of the pregenerated-wallet handlers.
In both `signWithEthers` and `signWithCosmJS`: the collaborator trace of
every request is a prefix of the canonical call sequence, in which the
wallet-existence check strictly precedes the key-share-store lookup; the
trace never repeats a step (no retries — every failure is terminal) and in
particular decrypts at most once; a `false` wallet-existence check ends
the request with 400 "Wallet does not exist"; a missing key-share record
ends it with 400 "Key share does not exist". -/
theorem c8_resolve_by_user_id (wd : DenoEthersWorld) (wb : BunCosmWorld)
    (auth : Option String) :
    ((signWithEthers wd auth).2 <+:
        denoEthersFullTrace (requestEmail wd auth)) ∧
    ((signWithCosmJS wb auth).2 <+:
        bunCosmFullTrace (cosmRequestEmail wb auth)) ∧
    ((signWithEthers wd auth).2).Nodup ∧
    ((signWithCosmJS wb auth).2).Nodup ∧
    ((signWithEthers wd auth).2).count .decrypt ≤ 1 ∧
    ((signWithCosmJS wb auth).2).count .decrypt ≤ 1 ∧
    (∀ ah u, auth = some ah → startsWithBearer ah = true →
      wd.verifyToken (bearerToken ah) = some u →
      wd.reqJson = .ok (some u) →
      falsy wd.capsuleApiKey = false →
      (wd.hasPregenWallet u = .ok false →
        signWithEthers wd auth =
          (.resp ⟨400, .text "Wallet does not exist"⟩,
           [.newCapsuleServer, .hasPregenWallet u])) ∧
      (wd.hasPregenWallet u = .ok true →
        wd.getKeyShareInDB u = none →
        signWithEthers wd auth =
          (.resp ⟨400, .text "Key share does not exist"⟩,
           [.newCapsuleServer, .hasPregenWallet u, .getKeyShare u]))) := by
  have hpd := signWithEthers_trace_prefix wd auth
  have hpb := signWithCosmJS_trace_prefix wb auth
  have hnd : ((signWithEthers wd auth).2).Nodup :=
    (hpd.sublist).nodup (denoEthersFullTrace_nodup _)
  have hnb : ((signWithCosmJS wb auth).2).Nodup :=
    (hpb.sublist).nodup (bunCosmFullTrace_nodup _)
  refine ⟨hpd, hpb, hnd, hnb,
    List.nodup_iff_count_le_one.mp hnd .decrypt,
    List.nodup_iff_count_le_one.mp hnb .decrypt,
    fun ah u hah hbd hv hj hk => ?_⟩
  subst hah
  constructor
  · intro hw
    simp [signWithEthers, extCall, hbd, hv, hj, hk, hw]
  · intro hw hks
    simp [signWithEthers, extCall, hbd, hv, hj, hk, hw, hks]

/-- Witness for C8 at the concrete request `Bearer tok1` for `a@b.com` in
the concrete no-wallet worlds: the existence check fails and the request
ends with 400 after exactly the two events preceding the key-share
lookup. -/
theorem c8_resolve_by_user_id_witness :
    signWithEthers denoNoWalletWorld (some "Bearer tok1") =
      (.resp ⟨400, .text "Wallet does not exist"⟩,
       [.newCapsuleServer, .hasPregenWallet "a@b.com"]) ∧
    ((signWithEthers denoNoWalletWorld (some "Bearer tok1")).2).count
        .decrypt ≤ 1 := by
  have h := c8_resolve_by_user_id denoNoWalletWorld bunNoWalletWorld
    (some "Bearer tok1")
  have h400 := (h.2.2.2.2.2.2 "Bearer tok1" "a@b.com" rfl (by decide)
    (by decide) rfl (by decide)).1 rfl
  exact ⟨h400, h.2.2.2.2.1⟩

/-! ## Express session handlers (src/unnamed/part_000)

Both Express handlers wrap their whole body in `try { ... } catch (error)
{ console.error(...); next(error); }`.  `expressCatch` models that
boundary: a thrown collaborator exception becomes a `console.error` log
followed by delegation to the Express error middleware via
`next(error)`. -/

def expressCatch (ctx : String) (p : Outcome × Trace) : Outcome × Trace :=
  match p with
  | (.thrown e, tr) => (.nextCalled e, tr ++ [.consoleError ctx])
  | other => other

def EXAMPLE_CONTRACT_ADDRESS : String :=
  "0x7920b6d8b07f0b9a3b96f238c64e022278db1419"

/-- `demoUserOperations` (src/unnamed/part_000, lines 92-99):
`[1, 2, 3, 4, 5].map(x => ({ target: EXAMPLE_CONTRACT_ADDRESS, data:
encodeFunctionData({ abi, functionName: "changeX", args: [x] }) }))`. -/
def demoUserOperations : List UserOp :=
  [1, 2, 3, 4, 5].map fun x => ⟨EXAMPLE_CONTRACT_ADDRESS, "changeX", [x]⟩

/-- Collaborator oracles of `alchemySessionSignHandler`: the environment,
session import, the Alchemy AA client construction (`await
createModularAccountAlchemyClient`) and `sendUserOperation`. -/
structure AlchemyWorld where
  capsuleApiKey : Option String
  alchemyApiKey : Option String
  alchemyGasPolicyId : Option String
  importSession : String → Except String Unit
  createAlchemyClient : Except String Unit
  sendUserOperation : List UserOp → Except String String

/-- The body of `alchemySessionSignHandler` (src/unnamed/part_000, lines
33-114) inside the try block: 400 when `session` is absent (falsy); 500
when `CAPSULE_API_KEY`, or `ALCHEMY_API_KEY`/`ALCHEMY_GAS_POLICY_ID`, is
unset; then construct the Capsule client, import the session, build the
viem client and the Alchemy AA client, and send the batch of five
`changeX` user operations. -/
def alchemySessionSignHandlerBody (w : AlchemyWorld)
    (session : Option String) : Outcome × Trace :=
  if falsy session then
    (.resp ⟨400, .text
      "Session is required. Ensure the client passes a valid session."⟩, [])
  else if falsy w.capsuleApiKey then
    (.resp ⟨500, .text
      "CAPSULE_API_KEY not set. Set it in the environment before using this handler."⟩,
     [])
  else if falsy w.alchemyApiKey || falsy w.alchemyGasPolicyId then
    (.resp ⟨500, .text
      "ALCHEMY_API_KEY or ALCHEMY_GAS_POLICY_ID not set. Provide these credentials to use Alchemy's AA."⟩,
     [])
  else
  let s := session.getD ""
  extCall (.importSession s) (w.importSession s) [.newCapsuleServer]
      fun _ tr =>
  let tr := tr ++ [.createViemClient]
  extCall .createAlchemyClient w.createAlchemyClient tr fun _ tr =>
  extCall (.sendUserOperation demoUserOperations)
      (w.sendUserOperation demoUserOperations) tr fun result tr =>
  (.resp ⟨200, .alchemyJson
      "Sent user operation using Alchemy + Capsule (session-based wallet, viem-based)."
      demoUserOperations result⟩, tr)

def alchemySessionSignHandler (w : AlchemyWorld)
    (session : Option String) : Outcome × Trace :=
  expressCatch "Error in alchemySessionSignHandler:"
    (alchemySessionSignHandlerBody w session)

/-- Collaborator oracles of `ethersSessionSignHandler`: the environment,
session import, and the ethers provider/signer. -/
structure EthersSessionWorld where
  capsuleApiKey : Option String
  importSession : String → Except String Unit
  getAddress : Except String String
  getTransactionCount : String → Except String Nat
  getFeeDataGasPrice : Except String (Option Nat)
  signTransaction : Except String String

/-- The body of `ethersSessionSignHandler` (src/unnamed/part_000, second
document, lines 160-220) inside the try block: 400 unless both `email`
and `session` are present; 500 when `CAPSULE_API_KEY` is unset; then
construct the Capsule client, import the session, build the provider and
signer, derive the address, assemble the demo transaction (fetching nonce
and gas price), and sign it. -/
def ethersSessionSignHandlerBody (w : EthersSessionWorld)
    (email session : Option String) : Outcome × Trace :=
  if falsy email || falsy session then
    (.resp ⟨400, .text
      "Provide both `email` and `session` in the request body."⟩, [])
  else if falsy w.capsuleApiKey then
    (.resp ⟨500, .text
      "Set CAPSULE_API_KEY in the environment before using this handler."⟩,
     [])
  else
  let s := session.getD ""
  extCall (.importSession s) (w.importSession s) [.newCapsuleServer]
      fun _ tr =>
  let tr := tr ++ [.newProvider]
  extCall .getAddress w.getAddress tr fun address tr =>
  extCall .getTransactionCount (w.getTransactionCount address) tr
      fun _nonce tr =>
  extCall .getFeeData w.getFeeDataGasPrice tr fun _gp tr =>
  extCall .signTransaction w.signTransaction tr fun tx tr =>
  (.resp ⟨200, .ethersSessionJson
      "Transaction signed using Ethers + Capsule (session-based wallet)."
      tx⟩, tr)

def ethersSessionSignHandler (w : EthersSessionWorld)
    (email session : Option String) : Outcome × Trace :=
  expressCatch "Error in ethersSessionSignHandler:"
    (ethersSessionSignHandlerBody w email session)

/-! ## Concrete Express-side worlds -/

/-- An Alchemy world with every environment variable set and every
collaborator call succeeding. -/
def alchemySuccessWorld : AlchemyWorld where
  capsuleApiKey := some "capsule-key"
  alchemyApiKey := some "alchemy-key"
  alchemyGasPolicyId := some "gas-policy"
  importSession := fun _ => .ok ()
  createAlchemyClient := .ok ()
  sendUserOperation := fun _ => .ok "op-hash"

/-- Like `alchemySuccessWorld`, but `CAPSULE_API_KEY` is unset. -/
def alchemyNoKeyWorld : AlchemyWorld :=
  { alchemySuccessWorld with capsuleApiKey := none }

/-- Like `alchemySuccessWorld`, but `importSession` throws. -/
def alchemyThrowWorld : AlchemyWorld :=
  { alchemySuccessWorld with importSession := fun _ => .error "boom" }

/-- An ethers session world with every collaborator call succeeding. -/
def ethersSessSuccessWorld : EthersSessionWorld where
  capsuleApiKey := some "capsule-key"
  importSession := fun _ => .ok ()
  getAddress := .ok "0xabc"
  getTransactionCount := fun _ => .ok 0
  getFeeDataGasPrice := .ok (some 1)
  signTransaction := .ok "rawtx"

/-- Like `ethersSessSuccessWorld`, but `CAPSULE_API_KEY` is unset. -/
def ethersSessNoKeyWorld : EthersSessionWorld :=
  { ethersSessSuccessWorld with capsuleApiKey := none }

/-- Like `bunNoWalletWorld`, but `CAPSULE_API_KEY` is unset. -/
def bunNoKeyWorld : BunCosmWorld :=
  { bunNoWalletWorld with capsuleApiKey := none }

/-! ## Claims about the session handlers -/

/-- C3: a request without a `session` field gets 400 from both
session-based handlers, with an empty collaborator trace: no Capsule
client is constructed and no `importSession` call is made. -/
theorem c3_missing_session_400 (wa : AlchemyWorld)
    (we : EthersSessionWorld) (email : Option String) :
    alchemySessionSignHandler wa none =
      (.resp ⟨400, .text
        "Session is required. Ensure the client passes a valid session."⟩,
       []) ∧
    ethersSessionSignHandler we email none =
      (.resp ⟨400, .text
        "Provide both `email` and `session` in the request body."⟩, []) ∧
    (∀ s, Ev.importSession s ∉ (alchemySessionSignHandler wa none).2) ∧
    Ev.newCapsuleServer ∉ (alchemySessionSignHandler wa none).2 ∧
    (∀ s, Ev.importSession s ∉
      (ethersSessionSignHandler we email none).2) ∧
    Ev.newCapsuleServer ∉ (ethersSessionSignHandler we email none).2 := by
  have h1 : alchemySessionSignHandler wa none =
      (.resp ⟨400, .text
        "Session is required. Ensure the client passes a valid session."⟩,
       []) := by
    simp [alchemySessionSignHandler, alchemySessionSignHandlerBody,
      expressCatch, falsy]
  have h2 : ethersSessionSignHandler we email none =
      (.resp ⟨400, .text
        "Provide both `email` and `session` in the request body."⟩, []) := by
    simp [ethersSessionSignHandler, ethersSessionSignHandlerBody,
      expressCatch, falsy]
  exact ⟨h1, h2, fun s => by simp [h1], by simp [h1],
    fun s => by simp [h2], by simp [h2]⟩

/-- C5 (counterexample): the claim demands a 500 for EVERY request when
`CAPSULE_API_KEY` is unset, regardless of the request's other contents.
In `denoNoKeyWorld` the key is unset, yet a request without an
authorization header gets 401, because the Deno handler checks the bearer
token before reading the environment. -/
theorem c5_unset_key_not_always_500 :
    denoNoKeyWorld.capsuleApiKey = none ∧
    signWithEthers denoNoKeyWorld none =
      (.resp ⟨401, .text "Unauthorized"⟩, []) := ⟨rfl, rfl⟩

/-- C5 (amended): when `CAPSULE_API_KEY` is unset, each signing route
returns 500 with an empty collaborator trace — before any network call —
for every request that passes the route's earlier input and authorization
checks (valid matching bearer token for the pregenerated-wallet routes,
present `session`/`email` fields for the session routes); requests
failing those earlier checks get their 400/401/403 first. -/
theorem c5_unset_key_500_short_circuit (wd : DenoEthersWorld)
    (wb : BunCosmWorld) (wa : AlchemyWorld) (we : EthersSessionWorld)
    (ah u s em : String) :
    (startsWithBearer ah = true →
      wd.verifyToken (bearerToken ah) = some u →
      wd.reqJson = .ok (some u) → wd.capsuleApiKey = none →
      signWithEthers wd (some ah) =
        (.resp ⟨500, .text "CAPSULE_API_KEY not set"⟩, [])) ∧
    (startsWithBearer ah = true →
      wb.verifyToken (bearerToken ah) = some u →
      wb.reqJson = .ok (some u) → wb.capsuleApiKey = none →
      signWithCosmJS wb (some ah) =
        (.resp ⟨500, .text "CAPSULE_API_KEY not set"⟩, [])) ∧
    (falsy (some s) = false → wa.capsuleApiKey = none →
      alchemySessionSignHandler wa (some s) =
        (.resp ⟨500, .text
          "CAPSULE_API_KEY not set. Set it in the environment before using this handler."⟩,
         [])) ∧
    (falsy (some s) = false → falsy (some em) = false →
      we.capsuleApiKey = none →
      ethersSessionSignHandler we (some em) (some s) =
        (.resp ⟨500, .text
          "Set CAPSULE_API_KEY in the environment before using this handler."⟩,
         [])) := by
  refine ⟨fun hb hv hj hk => ?_, fun hb hv hj hk => ?_,
    fun hs hk => ?_, fun hs he hk => ?_⟩
  · simp [signWithEthers, hb, hv, hj, falsy, hk]
  · simp [signWithCosmJS, hb, hv, hj, falsy, hk]
  · simp only [falsy] at hs
    simp at hs
    simp [alchemySessionSignHandler, alchemySessionSignHandlerBody,
      expressCatch, hs, falsy, hk]
  · simp only [falsy] at hs he
    simp at hs he
    simp [ethersSessionSignHandler, ethersSessionSignHandlerBody,
      expressCatch, hs, he, falsy, hk]

/-- Witness for C5's amended theorem: concrete no-key worlds, the request
`Bearer tok1` for `a@b.com` and session `sess1`. -/
theorem c5_unset_key_500_short_circuit_witness :
    signWithEthers denoNoKeyWorld (some "Bearer tok1") =
      (.resp ⟨500, .text "CAPSULE_API_KEY not set"⟩, []) ∧
    signWithCosmJS bunNoKeyWorld (some "Bearer tok1") =
      (.resp ⟨500, .text "CAPSULE_API_KEY not set"⟩, []) ∧
    alchemySessionSignHandler alchemyNoKeyWorld (some "sess1") =
      (.resp ⟨500, .text
        "CAPSULE_API_KEY not set. Set it in the environment before using this handler."⟩,
       []) ∧
    ethersSessionSignHandler ethersSessNoKeyWorld (some "a@b.com")
        (some "sess1") =
      (.resp ⟨500, .text
        "Set CAPSULE_API_KEY in the environment before using this handler."⟩,
       []) := by
  have h := c5_unset_key_500_short_circuit denoNoKeyWorld bunNoKeyWorld
    alchemyNoKeyWorld ethersSessNoKeyWorld "Bearer tok1" "a@b.com"
    "sess1" "a@b.com"
  exact ⟨h.1 (by decide) (by decide) rfl rfl,
    h.2.1 (by decide) (by decide) rfl rfl,
    h.2.2.1 (by decide) rfl,
    h.2.2.2 (by decide) (by decide) rfl⟩

/-- C7: a successful session-based account-abstraction request (session
present, all environment variables set, all collaborator calls
succeeding) returns 200 carrying the submitted batch, which contains
exactly 5 user operations, one per element of `[1, 2, 3, 4, 5]`, each
targeting the Example contract address with a `changeX` call on that
element, in list order. -/
theorem c7_alchemy_five_batched_calls (wa : AlchemyWorld) (s r : String)
    (hs : falsy (some s) = false)
    (hk : falsy wa.capsuleApiKey = false)
    (ha : falsy wa.alchemyApiKey = false)
    (hg : falsy wa.alchemyGasPolicyId = false)
    (hi : wa.importSession s = .ok ())
    (hc : wa.createAlchemyClient = .ok ())
    (hr : wa.sendUserOperation demoUserOperations = .ok r) :
    alchemySessionSignHandler wa (some s) =
      (.resp ⟨200, .alchemyJson
        "Sent user operation using Alchemy + Capsule (session-based wallet, viem-based)."
        demoUserOperations r⟩,
       [.newCapsuleServer, .importSession s, .createViemClient,
        .createAlchemyClient, .sendUserOperation demoUserOperations]) ∧
    demoUserOperations.length = 5 ∧
    (∀ i, (h : i < demoUserOperations.length) →
      demoUserOperations.get ⟨i, h⟩ =
        ⟨EXAMPLE_CONTRACT_ADDRESS, "changeX", [i + 1]⟩) := by
  refine ⟨?_, rfl, fun i h => ?_⟩
  · simp [alchemySessionSignHandler, alchemySessionSignHandlerBody,
      expressCatch, extCall, hs, hk, ha, hg, hi, hc, hr]
  · have h5 : i < 5 := h
    interval_cases i <;> rfl

/-- Witness for C7 in the all-success world with session `sess1`. -/
theorem c7_alchemy_five_batched_calls_witness :
    alchemySessionSignHandler alchemySuccessWorld (some "sess1") =
      (.resp ⟨200, .alchemyJson
        "Sent user operation using Alchemy + Capsule (session-based wallet, viem-based)."
        demoUserOperations "op-hash"⟩,
       [.newCapsuleServer, .importSession "sess1", .createViemClient,
        .createAlchemyClient, .sendUserOperation demoUserOperations]) ∧
    demoUserOperations.length = 5 := by
  have h := c7_alchemy_five_batched_calls alchemySuccessWorld "sess1"
    "op-hash" (by decide) (by decide) (by decide) (by decide) rfl rfl rfl
  exact ⟨h.1, h.2.1⟩

theorem alchemyBody_not_nextCalled (w : AlchemyWorld)
    (session : Option String) (e : String) :
    (alchemySessionSignHandlerBody w session).1 ≠ .nextCalled e := by
  by_cases h1 : falsy session = true
  · simp [alchemySessionSignHandlerBody, h1]
  by_cases h2 : falsy w.capsuleApiKey = true
  · simp [alchemySessionSignHandlerBody, h1, h2]
  by_cases h3 : (falsy w.alchemyApiKey || falsy w.alchemyGasPolicyId) = true
  · simp [alchemySessionSignHandlerBody, h1, h2, h3]
  rcases h4 : w.importSession (session.getD "") with e4 | _
  · simp [alchemySessionSignHandlerBody, extCall, h1, h2, h3, h4]
  rcases h5 : w.createAlchemyClient with e5 | _
  · simp [alchemySessionSignHandlerBody, extCall, h1, h2, h3, h4, h5]
  rcases h6 : w.sendUserOperation demoUserOperations with e6 | r6
  all_goals
    simp [alchemySessionSignHandlerBody, extCall, h1, h2, h3, h4, h5, h6]

theorem ethersSessBody_not_nextCalled (w : EthersSessionWorld)
    (email session : Option String) (e : String) :
    (ethersSessionSignHandlerBody w email session).1 ≠ .nextCalled e := by
  by_cases h1 : (falsy email || falsy session) = true
  · simp [ethersSessionSignHandlerBody, h1]
  by_cases h2 : falsy w.capsuleApiKey = true
  · simp [ethersSessionSignHandlerBody, h1, h2]
  rcases h3 : w.importSession (session.getD "") with e3 | _
  · simp [ethersSessionSignHandlerBody, extCall, h1, h2, h3]
  rcases h4 : w.getAddress with e4 | address
  · simp [ethersSessionSignHandlerBody, extCall, h1, h2, h3, h4]
  rcases h5 : w.getTransactionCount address with e5 | _
  · simp [ethersSessionSignHandlerBody, extCall, h1, h2, h3, h4, h5]
  rcases h6 : w.getFeeDataGasPrice with e6 | _
  · simp [ethersSessionSignHandlerBody, extCall, h1, h2, h3, h4, h5, h6]
  rcases h7 : w.signTransaction with e7 | tx
  all_goals
    simp [ethersSessionSignHandlerBody, extCall, h1, h2, h3, h4, h5, h6,
      h7]

/-- C9 (counterexample): the claim says every handler catches every
collaborator exception at its boundary and surfaces a 500.  The Deno
`signWithEthers` handler has no try/catch: in `denoThrowWorld`, where the
wallet-existence check throws "network timeout", the valid request
`Bearer tok1` ends with the exception escaping the handler uncaught — not
with any response, let alone a 500. -/
theorem c9_deno_handler_does_not_catch :
    signWithEthers denoThrowWorld (some "Bearer tok1") =
      (.thrown "network timeout",
       [.newCapsuleServer, .hasPregenWallet "a@b.com"]) ∧
    (∀ r : Response,
      (signWithEthers denoThrowWorld (some "Bearer tok1")).1 ≠ .resp r) := by
  have h : signWithEthers denoThrowWorld (some "Bearer tok1") =
      (.thrown "network timeout",
       [.newCapsuleServer, .hasPregenWallet "a@b.com"]) := by decide
  exact ⟨h, fun r => by simp [h]⟩

/-- C9 (amended): the Express session handlers (`alchemySessionSignHandler`
and `ethersSessionSignHandler`) catch every collaborator exception at the
handler boundary: no run ever lets an exception escape, and whenever a run
ends by delegating an error to the Express error middleware via
`next(error)`, that error is exactly the exception the body threw and the
handler logged it with `console.error` first.  The Deno and Bun handlers
have no such boundary (see the counterexample). -/
theorem c9_express_handlers_catch (wa : AlchemyWorld)
    (we : EthersSessionWorld) (session email : Option String) :
    (∀ e, (alchemySessionSignHandler wa session).1 ≠ .thrown e) ∧
    (∀ e, (ethersSessionSignHandler we email session).1 ≠ .thrown e) ∧
    (∀ e, (alchemySessionSignHandler wa session).1 = .nextCalled e →
      (alchemySessionSignHandlerBody wa session).1 = .thrown e ∧
      (alchemySessionSignHandler wa session).2 =
        (alchemySessionSignHandlerBody wa session).2 ++
          [.consoleError "Error in alchemySessionSignHandler:"]) ∧
    (∀ e, (ethersSessionSignHandler we email session).1 = .nextCalled e →
      (ethersSessionSignHandlerBody we email session).1 = .thrown e ∧
      (ethersSessionSignHandler we email session).2 =
        (ethersSessionSignHandlerBody we email session).2 ++
          [.consoleError "Error in ethersSessionSignHandler:"]) := by
  have hna := alchemyBody_not_nextCalled wa session
  have hne := ethersSessBody_not_nextCalled we email session
  rcases hb : alchemySessionSignHandlerBody wa session with ⟨o, tr⟩
  rcases hb' : ethersSessionSignHandlerBody we email session with ⟨o', tr'⟩
  rw [hb] at hna
  rw [hb'] at hne
  have ha : alchemySessionSignHandler wa session =
      expressCatch "Error in alchemySessionSignHandler:" (o, tr) := by
    rw [alchemySessionSignHandler, hb]
  have he : ethersSessionSignHandler we email session =
      expressCatch "Error in ethersSessionSignHandler:" (o', tr') := by
    rw [ethersSessionSignHandler, hb']
  refine ⟨fun e => ?_, fun e => ?_, fun e hn => ?_, fun e hn => ?_⟩
  · rw [ha]; cases o <;> simp [expressCatch]
  · rw [he]; cases o' <;> simp [expressCatch]
  · rw [ha] at hn ⊢
    cases o with
    | resp r => simp [expressCatch] at hn
    | thrown e0 =>
        have he0 : e0 = e := by simpa [expressCatch] using hn
        subst he0
        simp [expressCatch]
    | nextCalled e0 => exact absurd rfl (hna e0)
  · rw [he] at hn ⊢
    cases o' with
    | resp r => simp [expressCatch] at hn
    | thrown e0 =>
        have he0 : e0 = e := by simpa [expressCatch] using hn
        subst he0
        simp [expressCatch]
    | nextCalled e0 => exact absurd rfl (hne e0)

/-- Witness for C9's amended theorem: in `alchemyThrowWorld` the session
importer throws "boom"; the Express handler converts it into a logged
`next("boom")` delegation rather than letting it escape. -/
theorem c9_express_handlers_catch_witness :
    (alchemySessionSignHandler alchemyThrowWorld (some "sess1")).1 ≠
      .thrown "boom" ∧
    (alchemySessionSignHandlerBody alchemyThrowWorld (some "sess1")).1 =
      .thrown "boom" := by
  have h := c9_express_handlers_catch alchemyThrowWorld
    ethersSessSuccessWorld (some "sess1") (some "a@b.com")
  exact ⟨h.1 "boom", (h.2.2.1 "boom" (by decide)).1⟩

end CapsuleExamples
